import Mathlib

set_option maxHeartbeats 1000000

/-! Shallow embedding of the dbtui repository (src/dbtui/dbt.py,
src/dbtui/main.py, src/dbtui/node_details.py): Python values as they
flow through the manifest accessors, the DBTManifest / DBTProject model,
the node-details rendering of main.py, and the lineage-graph layer that
the specification describes. -/

/-- Python runtime values as they flow through dbt.py: primitives,
containers, pathlib paths, pydantic-style model objects (a v2-style
object exposing model_dump and a v1-style object exposing dict are each
modelled by the value their method returns), and any other object,
carried with its str() rendering. Floats are opaque here: dbt.py only
passes them through, never computes with them. -/
inductive Py where
  | none : Py
  | bool : Bool → Py
  | int : Int → Py
  | float : String → Py
  | str : String → Py
  | path : String → Py
  | dict : List (Py × Py) → Py
  | list : List Py → Py
  | tuple : List Py → Py
  | set : List Py → Py
  | modelV2 : Py → Py
  | modelV1 : Py → Py
  | obj : String → Py

mutual

/-- Python repr of a value (containers rendered structurally; only the
fact that the result is a string matters to the theorems below). -/
def pyRepr : Py → String
  | Py.none => "None"
  | Py.bool true => "True"
  | Py.bool false => "False"
  | Py.int n => toString n
  | Py.float r => r
  | Py.str s => "\x27" ++ s ++ "\x27"
  | Py.path p => "PosixPath(\x27" ++ p ++ "\x27)"
  | Py.dict es => "\x7b" ++ pyReprEntries es ++ "\x7d"
  | Py.list xs => "[" ++ pyReprList xs ++ "]"
  | Py.tuple xs => "(" ++ pyReprList xs ++ ")"
  | Py.set xs => "\x7b" ++ pyReprList xs ++ "\x7d"
  | Py.modelV2 d => "Model(" ++ pyRepr d ++ ")"
  | Py.modelV1 d => "Model(" ++ pyRepr d ++ ")"
  | Py.obj r => r

/-- repr of the elements of a Python list, comma separated. -/
def pyReprList : List Py → String
  | [] => ""
  | [x] => pyRepr x
  | x :: xs => pyRepr x ++ ", " ++ pyReprList xs

/-- repr of the entries of a Python dict, comma separated. -/
def pyReprEntries : List (Py × Py) → String
  | [] => ""
  | [(k, v)] => pyRepr k ++ ": " ++ pyRepr v
  | (k, v) :: es => pyRepr k ++ ": " ++ pyRepr v ++ ", " ++ pyReprEntries es

end

/-- Python str() of a value: identical to repr() except on str and Path. -/
def pyStr : Py → String
  | Py.str s => s
  | Py.path p => p
  | v => pyRepr v

/-- Python truthiness, as used by `if materialized` and similar tests in
main.py. The float case is approximate (floats are opaque reprs here);
no claim exercises it. -/
def pyTruthy : Py → Bool
  | Py.none => false
  | Py.bool b => b
  | Py.int n => decide (n ≠ 0)
  | Py.float r => !(r == "0.0" || r == "-0.0" || r == "0")
  | Py.str s => !(s == "")
  | Py.path _ => true
  | Py.dict es => !es.isEmpty
  | Py.list xs => !xs.isEmpty
  | Py.tuple xs => !xs.isEmpty
  | Py.set xs => !xs.isEmpty
  | Py.modelV2 _ => true
  | Py.modelV1 _ => true
  | Py.obj _ => true

/-- Does a Python dict key equal the string literal s (Python `==`:
only a str key can compare equal to a str)? -/
def pyKeyEq (k : Py) (s : String) : Bool :=
  match k with
  | Py.str t => t == s
  | _ => false

/-- Python `d.get(key)` on a dict's entry list: the value at the first
entry whose key equals the string, if any. -/
def pyDictGet (es : List (Py × Py)) (k : String) : Option Py :=
  (es.find? (fun e => pyKeyEq e.1 k)).map (fun e => e.2)

mutual

/-- DBTManifest._to_jsonable (dbt.py lines 178-209), with helpers for
its recursion through lists and dict entries: primitives pass through,
Path becomes str(obj), dict keys are stringified and values converted,
list/tuple/set become converted lists, a model_dump-style object yields
whatever model_dump returns, a dict-method object yields whatever that
method returns, and anything else falls back to str(obj). -/
def to_jsonable : Py → Py
  | Py.none => Py.none
  | Py.bool b => Py.bool b
  | Py.int n => Py.int n
  | Py.float r => Py.float r
  | Py.str s => Py.str s
  | Py.path p => Py.str p
  | Py.dict es => Py.dict (to_jsonable_entries es)
  | Py.list xs => Py.list (to_jsonable_list xs)
  | Py.tuple xs => Py.list (to_jsonable_list xs)
  | Py.set xs => Py.list (to_jsonable_list xs)
  | Py.modelV2 d => d
  | Py.modelV1 d => d
  | Py.obj r => Py.str r

def to_jsonable_list : List Py → List Py
  | [] => []
  | x :: xs => to_jsonable x :: to_jsonable_list xs

def to_jsonable_entries : List (Py × Py) → List (Py × Py)
  | [] => []
  | (k, v) :: es => (Py.str (pyStr k), to_jsonable v) :: to_jsonable_entries es

end

mutual

/-- A value is JSON-serializable: built only from None, booleans,
numbers, strings, lists, and string-keyed dicts. -/
def isJsonable : Py → Bool
  | Py.none => true
  | Py.bool _ => true
  | Py.int _ => true
  | Py.float _ => true
  | Py.str _ => true
  | Py.path _ => false
  | Py.dict es => isJsonableEntries es
  | Py.list xs => isJsonableList xs
  | Py.tuple _ => false
  | Py.set _ => false
  | Py.modelV2 _ => false
  | Py.modelV1 _ => false
  | Py.obj _ => false

def isJsonableList : List Py → Bool
  | [] => true
  | x :: xs => isJsonable x && isJsonableList xs

def isJsonableEntries : List (Py × Py) → Bool
  | [] => true
  | (k, v) :: es =>
    (match k with | Py.str _ => true | _ => false) && isJsonable v && isJsonableEntries es

end

mutual

/-- A value contains no pydantic-style model objects (no constructor
whose conversion escapes the recursion of _to_jsonable). -/
def noModel : Py → Bool
  | Py.none => true
  | Py.bool _ => true
  | Py.int _ => true
  | Py.float _ => true
  | Py.str _ => true
  | Py.path _ => true
  | Py.dict es => noModelEntries es
  | Py.list xs => noModelList xs
  | Py.tuple xs => noModelList xs
  | Py.set xs => noModelList xs
  | Py.modelV2 _ => false
  | Py.modelV1 _ => false
  | Py.obj _ => true

def noModelList : List Py → Bool
  | [] => true
  | x :: xs => noModel x && noModelList xs

def noModelEntries : List (Py × Py) → Bool
  | [] => true
  | (_, v) :: es => noModel v && noModelEntries es

end

/-- ASCII whitespace recognized by Python strip(). -/
def pyIsSpace (c : Char) : Bool :=
  c == ' ' || c == '\t' || c == '\n' || c == '\r' || c == '\x0b' || c == '\x0c'

/-- Python s.lower() (ASCII letters; the include keywords are ASCII). -/
def pyLowerStr (s : String) : String :=
  String.mk (s.data.map Char.toLower)

/-- Python s.strip(): drop leading and trailing whitespace. -/
def pyStrip (s : String) : String :=
  String.mk (((s.data.dropWhile pyIsSpace).reverse.dropWhile pyIsSpace).reverse)

/-- Python s.title() over a character list: an alphabetic character is
uppercased when the previous character was not alphabetic and lowercased
otherwise; other characters pass through. -/
def pyTitleAux : List Char → Bool → List Char
  | [], _ => []
  | c :: cs, prevCased =>
    (if c.isAlpha then (if prevCased then c.toLower else c.toUpper) else c)
      :: pyTitleAux cs c.isAlpha

/-- Python s.title(). -/
def pyTitle (s : String) : String :=
  String.mk (pyTitleAux s.data false)

/-- Python id.split("."): split a character list at every dot, keeping
empty segments, as Python str.split does on a one-character separator. -/
def splitOnDot : List Char → List (List Char)
  | [] => [[]]
  | c :: cs =>
    if c = '.' then [] :: splitOnDot cs
    else
      match splitOnDot cs with
      | seg :: rest => (c :: seg) :: rest
      | [] => [[c]]

/-- Python id.split(".")[-1]: the last dot-delimited segment of an id,
as used by main.py lines 115 and 125 to display parent/child names. -/
def lastSegment (s : String) : String :=
  String.mk ((splitOnDot s.data).getLastD [])

/-- The node title rendered by NodeDetails.update_details (main.py lines
79-86): name defaults to "Unknown", resource_type to "node"; the title is
resource_type.title() ++ ": " ++ name, followed by the materialized
configuration in parentheses when it is truthy. Returns Option.none when
Python would raise an AttributeError (resource_type.title() on a
non-string, or .get on a non-dict config). -/
def nodeTitle (details : List (Py × Py)) : Option String :=
  let name := (pyDictGet details "name").getD (Py.str "Unknown")
  let resource_type := (pyDictGet details "resource_type").getD (Py.str "node")
  let config := (pyDictGet details "config").getD (Py.dict [])
  match resource_type, config with
  | Py.str rt, Py.dict ces =>
    let materialized := (pyDictGet ces "materialized").getD (Py.str "")
    let matStr := if pyTruthy materialized then " (" ++ pyStr materialized ++ ")" else ""
    some (pyTitle rt ++ ": " ++ pyStr name ++ matStr)
  | _, _ => Option.none

/-- The parent (and child) display names of main.py lines 115 and 125:
each id is shown by its last dot-delimited segment. -/
def parentDisplayNames (parent_nodes : List String) : List String :=
  parent_nodes.map lastSegment

/-- Error conditions raised by the Python code, one constructor per
raise site/kind: FileNotFoundError from open(), json.JSONDecodeError
from json.load, a failure inside the external parse_manifest call
(which raises ValueError or pydantic ValidationError), and the explicit
ValueError raised by get_manifest_json's include validation. The
constructors name the conditions; they do not encode Python's exception
class hierarchy, in which several of them are ValueError instances —
that relation is Err.isValueError below. -/
inductive Err where
  | notFoundError : Err
  | jsonDecodeError : Err
  | parseManifestError : Err
  | valueError : Err
deriving DecidableEq

/-- Python's exception hierarchy applied to the modelled conditions:
which of them an `except ValueError` would catch. json.JSONDecodeError
subclasses ValueError; parse_manifest failures are ValueError or
pydantic ValidationError, itself a ValueError subclass;
FileNotFoundError is an OSError, not a ValueError. -/
def Err.isValueError : Err → Bool
  | Err.notFoundError => false
  | Err.jsonDecodeError => true
  | Err.parseManifestError => true
  | Err.valueError => true

/-- The filesystem as load_manifest observes it: a path (list of
components) is absent (Option.none), present but not valid JSON
(some Option.none, where json.load raises), or present with the JSON
value json.load returns (some (some data)). -/
def FS : Type := List String → Option (Option Py)

/-- Result of the external dbt_artifacts_parser.parse_manifest call:
node, source and macro mappings (each Optional in the parsed object,
matching the `or` defaults in dbt.py lines 166-176); Option.none from the
function models a raised parsing error. -/
structure Native where
  nodes : Option (List (String × Py))
  sources : Option (List (String × Py))
  macros : Option (List (String × Py))

/-- DBTManifest (dbt.py lines 137-221): the raw json.load payload plus
the parse_manifest result. -/
structure DBTManifest where
  _data : Py
  _native : Native

/-- DBTManifest.from_file (dbt.py lines 147-151) followed by __init__
(lines 143-145): open and json.load the file, then run parse_manifest.
pm is the external parse_manifest. -/
def DBTManifest.from_file (fs : FS) (pm : Py → Option Native) (path : List String) :
    Except Err DBTManifest :=
  match fs path with
  | Option.none => Except.error Err.notFoundError
  | some Option.none => Except.error Err.jsonDecodeError
  | some (some data) =>
    match pm data with
    | Option.none => Except.error Err.parseManifestError
    | some native => Except.ok { _data := data, _native := native }

/-- DBTManifest.nodes (dbt.py line 166): self._native.nodes or empty. -/
def DBTManifest.nodes (self : DBTManifest) : List (String × Py) :=
  self._native.nodes.getD []

/-- DBTManifest.sources (dbt.py line 171). -/
def DBTManifest.sources (self : DBTManifest) : List (String × Py) :=
  self._native.sources.getD []

/-- DBTManifest.macros (dbt.py line 176). -/
def DBTManifest.macros (self : DBTManifest) : List (String × Py) :=
  self._native.macros.getD []

/-- DBTManifest.nodes_json (dbt.py lines 211-213). -/
def DBTManifest.nodes_json (self : DBTManifest) : List (String × Py) :=
  self.nodes.map (fun kv => (kv.1, to_jsonable kv.2))

/-- DBTManifest.sources_json (dbt.py lines 215-217). -/
def DBTManifest.sources_json (self : DBTManifest) : List (String × Py) :=
  self.sources.map (fun kv => (kv.1, to_jsonable kv.2))

/-- DBTManifest.macros_json (dbt.py lines 219-221). -/
def DBTManifest.macros_json (self : DBTManifest) : List (String × Py) :=
  self.macros.map (fun kv => (kv.1, to_jsonable kv.2))

/-- DBTProject state (dbt.py lines 224-257): resolved project path,
parsed dbt_project.yml (string keys and values suffice for the keys the
code reads), and the cached manifest. -/
structure DBTProject where
  project_path : List String
  project_yaml : List (String × String)
  _manifest : Option DBTManifest

/-- Lookup in the parsed YAML mapping (Python dict.get on string keys). -/
def yamlGet (m : List (String × String)) (k : String) : Option String :=
  (m.find? (fun e => e.1 == k)).map (fun e => e.2)

/-- DBTProject.manifest_path (dbt.py lines 274-282):
project_path / project_yaml.get("target-path", "target") / "manifest.json". -/
def DBTProject.manifest_path (self : DBTProject) : List String :=
  self.project_path ++ [(yamlGet self.project_yaml "target-path").getD "target", "manifest.json"]

/-- DBTProject.has_manifest (dbt.py lines 284-286). -/
def DBTProject.has_manifest (self : DBTProject) (fs : FS) : Bool :=
  (fs self.manifest_path).isSome

/-- DBTProject.load_manifest (dbt.py lines 288-306), in explicit
state-passing form: the result models the returned value or the raised
exception, and the second component is the object state afterwards. The
cache assignment (line 305) happens only after DBTManifest.from_file has
returned, so on an exception the state is unchanged. -/
def DBTProject.load_manifest (self : DBTProject) (fs : FS) (pm : Py → Option Native)
    (reload : Bool) : Except Err (Option DBTManifest) × DBTProject :=
  if self._manifest.isSome && !reload then (Except.ok self._manifest, self)
  else
    let manifest_file := self.manifest_path
    if (fs manifest_file).isNone then (Except.ok Option.none, self)
    else
      match DBTManifest.from_file fs pm manifest_file with
      | Except.error e => (Except.error e, self)
      | Except.ok m => (Except.ok (some m), { self with _manifest := some m })

/-- DBTProject._manifest_or_empty (dbt.py lines 308-310). -/
def DBTProject.manifest_or_empty (self : DBTProject) (fs : FS) (pm : Py → Option Native) :
    Except Err (Option DBTManifest) × DBTProject :=
  self.load_manifest fs pm false

/-- The membership test of _filter_nodes_by_resource_type (dbt.py lines
312-320): the node is a dict and its resource_type value equals the
requested string (Python ==; a missing or non-string value compares
unequal to a string). -/
def nodeHasType (node : Py) (resource_type : String) : Bool :=
  match node with
  | Py.dict es =>
    match pyDictGet es "resource_type" with
    | some (Py.str s) => s == resource_type
    | _ => false
  | _ => false

/-- DBTProject._filter_nodes_by_resource_type (dbt.py lines 312-320):
the sub-mapping of nodes whose value is a dict with the requested
resource_type, in the mapping's own iteration order. -/
def DBTProject.filter_nodes_by_resource_type (nodes : List (String × Py))
    (resource_type : String) : List (String × Py) :=
  nodes.filter (fun kv => nodeHasType kv.2 resource_type)

/-- DBTProject.VALID_INCLUDE (dbt.py line 234). -/
def VALID_INCLUDE : List String := ["all", "model", "seed", "source", "test", "macro"]

/-- A string-keyed mapping as a Python dict value. -/
def toPyDict (m : List (String × Py)) : Py :=
  Py.dict (m.map (fun kv => (Py.str kv.1, kv.2)))

/-- DBTProject.get_manifest_json (dbt.py lines 322-375): normalize
include with lower().strip(), raise ValueError when it is not a valid
include, return an empty dict when no manifest is available, and
otherwise the payload selected by include. -/
def DBTProject.get_manifest_json (self : DBTProject) (fs : FS) (pm : Py → Option Native)
    (includeArg : String) : Except Err Py × DBTProject :=
  let inc := pyStrip (pyLowerStr includeArg)
  if !(VALID_INCLUDE.contains inc) then (Except.error Err.valueError, self)
  else
    match self.manifest_or_empty fs pm with
    | (Except.error e, st) => (Except.error e, st)
    | (Except.ok Option.none, st) => (Except.ok (Py.dict []), st)
    | (Except.ok (some manifest), st) =>
      let nodes := manifest.nodes_json
      let sources := manifest.sources_json
      let macros := manifest.macros_json
      let result : Py :=
        if inc == "all" then
          Py.dict [(Py.str "nodes", toPyDict nodes), (Py.str "sources", toPyDict sources),
            (Py.str "macros", toPyDict macros)]
        else if inc == "model" then toPyDict (DBTProject.filter_nodes_by_resource_type nodes "model")
        else if inc == "seed" then toPyDict (DBTProject.filter_nodes_by_resource_type nodes "seed")
        else if inc == "test" then toPyDict (DBTProject.filter_nodes_by_resource_type nodes "test")
        else if inc == "source" then toPyDict sources
        else if inc == "macro" then toPyDict macros
        else Py.dict []
      (Except.ok result, st)

/-- Modelled from the spec: a Unit of the catalog, with the required
fields the graph engine touches (spec section 3) — unique_id, name,
resource_type, and the depends_on id sequence. The graph-building code
is not among the source files under src/ (main.py line 122 notes that
children are computed separately); it is modelled from spec sections 3
and 4.2. -/
structure SpecUnit where
  unique_id : String
  name : String
  resource_type : String
  depends_on : List String
deriving DecidableEq

/-- Modelled from the spec: append one id to the sequence recorded for a
key in an adjacency mapping (the `+= [x]` step of spec section 4.2),
creating the entry when absent. -/
def appendEdge (m : List (String × List String)) (k v : String) :
    List (String × List String) :=
  match m with
  | [] => [(k, [v])]
  | (k0, vs) :: rest =>
    if k0 = k then (k0, vs ++ [v]) :: rest else (k0, vs) :: appendEdge rest k v

/-- Sequence recorded for a key in an adjacency mapping, empty when the
key is absent (unknown ids are not an error, only an empty result). -/
def lookupSeq (m : List (String × List String)) (k : String) : List String :=
  ((m.find? (fun e => e.1 == k)).map (fun e => e.2)).getD []

/-- Modelled from the spec: the lineage graph of spec section 4.2 —
parents and children adjacency mappings. -/
structure Graph where
  parents : List (String × List String)
  children : List (String × List String)

/-- Modelled from the spec: build(catalog) (spec section 4.2) — one pass
over every unit's depends_on; for entry U depending on P it records
parents[U] += [P] and children[P] += [U], preserving input order and
duplicates. -/
def build (catalog : List SpecUnit) : Graph :=
  { parents :=
      catalog.foldl
        (fun m u => u.depends_on.foldl (fun m p => appendEdge m u.unique_id p) m) [],
    children :=
      catalog.foldl
        (fun m u => u.depends_on.foldl (fun m p => appendEdge m p u.unique_id) m) [] }

/-- Modelled from the spec: parents_of(graph, unique_id) (spec section
4.2) — the recorded sequence, or empty for an unknown id. -/
def parents_of (g : Graph) (uid : String) : List String :=
  lookupSeq g.parents uid

/-- Modelled from the spec: children_of(graph, unique_id) (spec section
4.2) — symmetric to parents_of. -/
def children_of (g : Graph) (uid : String) : List String :=
  lookupSeq g.children uid

/-- The name field of a node payload, as the display-order contract of
spec section 4.1 sorts by it (empty for a payload without a string
name). -/
def nodeName (node : Py) : String :=
  match node with
  | Py.dict es =>
    match pyDictGet es "name" with
    | some (Py.str s) => s
    | _ => ""
  | _ => ""

/-- Strict lexicographic order on character lists. -/
def charListLt : List Char → List Char → Bool
  | [], [] => false
  | [], _ :: _ => true
  | _ :: _, [] => false
  | a :: as, b :: bs => if a < b then true else if b < a then false else charListLt as bs

/-- Strict byte order on strings (case-sensitive). -/
def strLtB (a b : String) : Bool :=
  charListLt a.data b.data

/-- Display-order comparison of spec section 4.1: name ascending
(case-sensitive), ties broken by unique_id ascending. -/
def displayKeyLe (a b : String × Py) : Bool :=
  let na := nodeName a.2
  let nb := nodeName b.2
  strLtB na nb || (na == nb && (strLtB a.1 b.1 || a.1 == b.1))

/-- Insertion step of the display-order sort. -/
def insertDisplay (x : String × Py) : List (String × Py) → List (String × Py)
  | [] => [x]
  | y :: ys => if displayKeyLe x y then x :: y :: ys else y :: insertDisplay x ys

/-- Insertion sort by the display-order comparison. -/
def sortDisplay : List (String × Py) → List (String × Py)
  | [] => []
  | x :: xs => insertDisplay x (sortDisplay xs)

/-- Modelled from the spec: filter_by_resource_type as spec section 4.1
words it — all units whose resource_type equals the requested value, in
display order: sorted by name ascending, ties broken by unique_id
ascending. Stated for comparison with the source's
_filter_nodes_by_resource_type. -/
def filter_by_resource_type_spec (nodes : List (String × Py)) (resource_type : String) :
    List (String × Py) :=
  sortDisplay (DBTProject.filter_nodes_by_resource_type nodes resource_type)

/-- Diamond example catalog from spec section 8, unit raw_customers. -/
def raw_customers_unit : SpecUnit :=
  { unique_id := "source.jaffle_shop.raw_customers", name := "raw_customers",
    resource_type := "source", depends_on := [] }

/-- Diamond example, unit customers. -/
def customers_unit : SpecUnit :=
  { unique_id := "model.jaffle_shop.customers", name := "customers",
    resource_type := "model", depends_on := ["source.jaffle_shop.raw_customers"] }

/-- Diamond example, unit orders. -/
def orders_unit : SpecUnit :=
  { unique_id := "model.jaffle_shop.orders", name := "orders",
    resource_type := "model", depends_on := ["model.jaffle_shop.customers"] }

/-- Diamond example, unit payments. -/
def payments_unit : SpecUnit :=
  { unique_id := "model.jaffle_shop.payments", name := "payments",
    resource_type := "model", depends_on := ["model.jaffle_shop.orders"] }

/-- The diamond catalog of spec section 8. -/
def diamond_catalog : List SpecUnit :=
  [raw_customers_unit, customers_unit, orders_unit, payments_unit]

/-- A model node payload named zeta. -/
def zeta_node : Py :=
  Py.dict [(Py.str "resource_type", Py.str "model"), (Py.str "name", Py.str "zeta")]

/-- A model node payload named alpha. -/
def alpha_node : Py :=
  Py.dict [(Py.str "resource_type", Py.str "model"), (Py.str "name", Py.str "alpha")]

/-- A nodes mapping whose insertion order differs from name order. -/
def exNodes : List (String × Py) :=
  [("model.demo.zeta", zeta_node), ("model.demo.alpha", alpha_node)]

/-- A parse_manifest stand-in that accepts anything with empty mappings. -/
def pm0 : Py → Option Native :=
  fun _ => some { nodes := some [], sources := some [], macros := some [] }

/-- A filesystem with no files at all. -/
def fs_missing : FS := fun _ => Option.none

/-- A filesystem where every file is present but not valid JSON. -/
def fs_corrupt : FS := fun _ => some Option.none

/-- A project with no cached manifest and no target-path override. -/
def proj0 : DBTProject :=
  { project_path := ["proj"], project_yaml := [], _manifest := Option.none }

/-- A manifest already held in a project's cache. -/
def cached_manifest : DBTManifest :=
  { _data := Py.dict [],
    _native := { nodes := some [], sources := some [], macros := some [] } }

/-- A project whose cache holds cached_manifest. -/
def proj_cached : DBTProject :=
  { project_path := ["proj"], project_yaml := [], _manifest := some cached_manifest }

/-- A project whose descriptor sets target-path. -/
def proj_tp : DBTProject :=
  { project_path := ["root"], project_yaml := [("target-path", "build")],
    _manifest := Option.none }

/-- A model-free nested payload exercising every recursive case of
_to_jsonable. -/
def c10_example : Py :=
  Py.dict [(Py.int 1, Py.path "p"),
    (Py.str "xs", Py.tuple [Py.set [Py.float "1.5", Py.obj "o"], Py.list [Py.none]])]

theorem lookupSeq_nil (q : String) : lookupSeq [] q = [] := rfl

theorem lookupSeq_cons (k0 : String) (vs : List String) (rest : List (String × List String))
    (q : String) :
    lookupSeq ((k0, vs) :: rest) q = if k0 = q then vs else lookupSeq rest q := by
  by_cases h : k0 = q
  · subst h
    simp [lookupSeq, List.find?_cons_of_pos]
  · rw [if_neg h]
    unfold lookupSeq
    rw [List.find?_cons_of_neg]
    simp [h]

theorem lookupSeq_appendEdge (m : List (String × List String)) (k v q : String) :
    lookupSeq (appendEdge m k v) q =
      if q = k then lookupSeq m q ++ [v] else lookupSeq m q := by
  induction m with
  | nil =>
    by_cases h : q = k
    · subst h
      simp [appendEdge, lookupSeq_cons, lookupSeq_nil]
    · rw [if_neg h]
      simp [appendEdge, lookupSeq_cons, lookupSeq_nil, Ne.symm h]
  | cons hd tl ih =>
    obtain ⟨k0, vs⟩ := hd
    by_cases hk : k0 = k
    · subst hk
      by_cases hq : k0 = q
      · subst hq
        simp [appendEdge, lookupSeq_cons]
      · rw [appendEdge, if_pos rfl, lookupSeq_cons, if_neg hq, lookupSeq_cons, if_neg hq,
          if_neg (fun hh : q = k0 => hq hh.symm)]
    · rw [appendEdge, if_neg hk, lookupSeq_cons]
      by_cases hq : k0 = q
      · subst hq
        rw [if_pos rfl, lookupSeq_cons, if_pos rfl,
          if_neg (fun hh : k0 = k => hk hh)]
      · rw [if_neg hq, ih, lookupSeq_cons, if_neg hq]

theorem lookupSeq_depsFold_parents (deps : List String) (m : List (String × List String))
    (k q : String) :
    lookupSeq (deps.foldl (fun m p => appendEdge m k p) m) q =
      if q = k then lookupSeq m q ++ deps else lookupSeq m q := by
  induction deps generalizing m with
  | nil =>
    by_cases h : q = k <;> simp [h]
  | cons d rest ih =>
    rw [List.foldl_cons, ih, lookupSeq_appendEdge]
    by_cases h : q = k
    · simp [h]
    · simp [h]

theorem lookupSeq_depsFold_children (deps : List String) (m : List (String × List String))
    (u q x : String) :
    x ∈ lookupSeq (deps.foldl (fun m p => appendEdge m p u) m) q ↔
      x ∈ lookupSeq m q ∨ (x = u ∧ q ∈ deps) := by
  induction deps generalizing m with
  | nil => simp
  | cons d rest ih =>
    rw [List.foldl_cons, ih, lookupSeq_appendEdge]
    by_cases h : q = d
    · rw [if_pos h]
      simp only [List.mem_append, List.mem_cons, List.not_mem_nil, or_false]
      constructor
      · rintro (⟨h1 | h1⟩ | ⟨h1, h2⟩)
        · exact Or.inl h1
        · exact Or.inr ⟨h1, Or.inl h⟩
        · exact Or.inr ⟨h1, Or.inr h2⟩
      · rintro (h1 | ⟨h1, _h2⟩)
        · exact Or.inl (Or.inl h1)
        · exact Or.inl (Or.inr h1)
    · rw [if_neg h]
      simp only [List.mem_cons]
      constructor
      · rintro (h1 | ⟨h1, h2⟩)
        · exact Or.inl h1
        · exact Or.inr ⟨h1, Or.inr h2⟩
      · rintro (h1 | ⟨h1, h2 | h2⟩)
        · exact Or.inl h1
        · exact absurd h2 h
        · exact Or.inr ⟨h1, h2⟩

theorem lookupSeq_catFold_parents_untouched (cat : List SpecUnit)
    (m : List (String × List String)) (q : String)
    (h : ∀ w ∈ cat, w.unique_id ≠ q) :
    lookupSeq
        (cat.foldl (fun m u => u.depends_on.foldl (fun m p => appendEdge m u.unique_id p) m) m)
        q = lookupSeq m q := by
  induction cat generalizing m with
  | nil => rfl
  | cons v rest ih =>
    rw [List.foldl_cons, ih _ (fun w hw => h w (List.mem_cons_of_mem _ hw)),
      lookupSeq_depsFold_parents,
      if_neg (fun hh : q = v.unique_id => h v (List.mem_cons_self _ _) hh.symm)]

theorem lookupSeq_catFold_parents_mem (cat : List SpecUnit)
    (m : List (String × List String)) (u : SpecUnit)
    (hnd : (cat.map SpecUnit.unique_id).Nodup) (hu : u ∈ cat) :
    lookupSeq
        (cat.foldl (fun m w => w.depends_on.foldl (fun m p => appendEdge m w.unique_id p) m) m)
        u.unique_id = lookupSeq m u.unique_id ++ u.depends_on := by
  induction cat generalizing m with
  | nil => exact absurd hu (List.not_mem_nil u)
  | cons v rest ih =>
    rw [List.map_cons, List.nodup_cons] at hnd
    rcases List.mem_cons.mp hu with h | h
    · subst h
      rw [List.foldl_cons,
        lookupSeq_catFold_parents_untouched rest _ _
          (fun w hw hh =>
            hnd.1 (by rw [← hh]; exact List.mem_map_of_mem SpecUnit.unique_id hw)),
        lookupSeq_depsFold_parents, if_pos rfl]
    · have hne : v.unique_id ≠ u.unique_id := by
        intro hh
        exact hnd.1 (by rw [hh]; exact List.mem_map_of_mem SpecUnit.unique_id h)
      rw [List.foldl_cons, ih _ hnd.2 h, lookupSeq_depsFold_parents,
        if_neg (fun hh : u.unique_id = v.unique_id => hne hh.symm)]

theorem lookupSeq_catFold_children_mem (cat : List SpecUnit)
    (m : List (String × List String)) (q x : String) :
    x ∈ lookupSeq
        (cat.foldl (fun m w => w.depends_on.foldl (fun m p => appendEdge m p w.unique_id) m) m)
        q ↔
      x ∈ lookupSeq m q ∨ ∃ w, w ∈ cat ∧ w.unique_id = x ∧ q ∈ w.depends_on := by
  induction cat generalizing m with
  | nil => simp
  | cons v rest ih =>
    rw [List.foldl_cons, ih, lookupSeq_depsFold_children]
    constructor
    · rintro (⟨h1 | ⟨h1, h2⟩⟩ | ⟨w, hw, h1, h2⟩)
      · exact Or.inl h1
      · exact Or.inr ⟨v, List.mem_cons_self _ _, h1.symm, h2⟩
      · exact Or.inr ⟨w, List.mem_cons_of_mem _ hw, h1, h2⟩
    · rintro (h1 | ⟨w, hw, h1, h2⟩)
      · exact Or.inl (Or.inl h1)
      · rcases List.mem_cons.mp hw with rfl | hv
        · exact Or.inl (Or.inr ⟨h1.symm, h2⟩)
        · exact Or.inr ⟨w, hv, h1, h2⟩

theorem load_manifest_reload_eval (self : DBTProject) (fs : FS) (pm : Py → Option Native) :
    self.load_manifest fs pm true =
      match fs self.manifest_path with
      | Option.none => (Except.ok Option.none, self)
      | some Option.none => (Except.error Err.jsonDecodeError, self)
      | some (some data) =>
        match pm data with
        | Option.none => (Except.error Err.parseManifestError, self)
        | some native =>
          (Except.ok (some ⟨data, native⟩), { self with _manifest := some ⟨data, native⟩ }) := by
  cases hfs : fs self.manifest_path with
  | none => simp [DBTProject.load_manifest, hfs]
  | some o =>
    cases o with
    | none => simp [DBTProject.load_manifest, DBTManifest.from_file, hfs]
    | some data =>
      cases hpm : pm data with
      | none => simp [DBTProject.load_manifest, DBTManifest.from_file, hfs, hpm]
      | some native => simp [DBTProject.load_manifest, DBTManifest.from_file, hfs, hpm]

theorem manifest_or_empty_eval (self : DBTProject) (fs : FS) (pm : Py → Option Native) :
    self.manifest_or_empty fs pm =
      match self._manifest with
      | some m => (Except.ok (some m), self)
      | Option.none =>
        match fs self.manifest_path with
        | Option.none => (Except.ok Option.none, self)
        | some Option.none => (Except.error Err.jsonDecodeError, self)
        | some (some data) =>
          match pm data with
          | Option.none => (Except.error Err.parseManifestError, self)
          | some native =>
            (Except.ok (some ⟨data, native⟩), { self with _manifest := some ⟨data, native⟩ }) := by
  cases hm : self._manifest with
  | some m => simp [DBTProject.manifest_or_empty, DBTProject.load_manifest, hm]
  | none =>
    cases hfs : fs self.manifest_path with
    | none => simp [DBTProject.manifest_or_empty, DBTProject.load_manifest, hm, hfs]
    | some o =>
      cases o with
      | none =>
        simp [DBTProject.manifest_or_empty, DBTProject.load_manifest, DBTManifest.from_file,
          hm, hfs]
      | some data =>
        cases hpm : pm data with
        | none =>
          simp [DBTProject.manifest_or_empty, DBTProject.load_manifest, DBTManifest.from_file,
            hm, hfs, hpm]
        | some native =>
          simp [DBTProject.manifest_or_empty, DBTProject.load_manifest, DBTManifest.from_file,
            hm, hfs, hpm]

mutual

theorem noModel_isJsonable : ∀ (v : Py), noModel v = true → isJsonable (to_jsonable v) = true
  | Py.none => fun _ => rfl
  | Py.bool _ => fun _ => rfl
  | Py.int _ => fun _ => rfl
  | Py.float _ => fun _ => rfl
  | Py.str _ => fun _ => rfl
  | Py.path _ => fun _ => rfl
  | Py.dict es => fun h => by
    rw [noModel] at h
    simp only [to_jsonable, isJsonable]
    exact noModelEntries_isJsonable es h
  | Py.list xs => fun h => by
    rw [noModel] at h
    simp only [to_jsonable, isJsonable]
    exact noModelList_isJsonable xs h
  | Py.tuple xs => fun h => by
    rw [noModel] at h
    simp only [to_jsonable, isJsonable]
    exact noModelList_isJsonable xs h
  | Py.set xs => fun h => by
    rw [noModel] at h
    simp only [to_jsonable, isJsonable]
    exact noModelList_isJsonable xs h
  | Py.modelV2 _ => fun h => by rw [noModel] at h; exact Bool.noConfusion h
  | Py.modelV1 _ => fun h => by rw [noModel] at h; exact Bool.noConfusion h
  | Py.obj _ => fun _ => rfl

theorem noModelList_isJsonable :
    ∀ (xs : List Py), noModelList xs = true → isJsonableList (to_jsonable_list xs) = true
  | [] => fun _ => rfl
  | x :: xs => fun h => by
    rw [noModelList, Bool.and_eq_true] at h
    simp only [to_jsonable_list, isJsonableList, Bool.and_eq_true]
    exact ⟨noModel_isJsonable x h.1, noModelList_isJsonable xs h.2⟩

theorem noModelEntries_isJsonable :
    ∀ (es : List (Py × Py)),
      noModelEntries es = true → isJsonableEntries (to_jsonable_entries es) = true
  | [] => fun _ => rfl
  | (k, v) :: es => fun h => by
    rw [noModelEntries, Bool.and_eq_true] at h
    simp only [to_jsonable_entries, isJsonableEntries, Bool.true_and, Bool.and_eq_true]
    exact ⟨noModel_isJsonable v h.1, noModelEntries_isJsonable es h.2⟩

end

/-- C1: for a loaded catalog (a mapping, so unit ids are distinct) and
every unit U in it and every id P, P appears in U's depends_on exactly
when U's unique_id appears in children_of(graph, P): the children
mapping, built by appending U to children[P] for every parent P in
U.depends_on, is the true inverse of the parents relation. -/
theorem children_of_true_inverse (catalog : List SpecUnit)
    (hnd : (catalog.map SpecUnit.unique_id).Nodup) :
    ∀ u ∈ catalog, ∀ p : String,
      p ∈ u.depends_on ↔ u.unique_id ∈ children_of (build catalog) p := by
  intro u hu p
  have hmem : u.unique_id ∈ children_of (build catalog) p ↔
      ∃ w, w ∈ catalog ∧ w.unique_id = u.unique_id ∧ p ∈ w.depends_on := by
    have h := lookupSeq_catFold_children_mem catalog [] p u.unique_id
    simpa [children_of, build, lookupSeq_nil] using h
  constructor
  · intro hp
    exact hmem.mpr ⟨u, hu, rfl, hp⟩
  · intro hc
    obtain ⟨w, hw, hid, hp⟩ := hmem.mp hc
    have hwu : w = u := List.inj_on_of_nodup_map hnd hw hu hid
    exact hwu ▸ hp

/-- C1 witness: in the diamond catalog, customers is a parent of orders
and orders is among the children of customers. -/
theorem children_of_true_inverse_witness :
    "model.jaffle_shop.customers" ∈ orders_unit.depends_on ↔
      orders_unit.unique_id ∈ children_of (build diamond_catalog) "model.jaffle_shop.customers" :=
  children_of_true_inverse diamond_catalog (by decide) orders_unit (by decide)
    "model.jaffle_shop.customers"

/-- C2: for every unit U of a loaded catalog, parents_of returns exactly
U's declared depends_on sequence (order and duplicates preserved as the
recorded list itself), and for an id with no recorded parents — in
particular an id unknown to the catalog — it returns the empty sequence
rather than failing. -/
theorem parents_of_matches_depends_on (catalog : List SpecUnit)
    (hnd : (catalog.map SpecUnit.unique_id).Nodup) :
    (∀ u ∈ catalog, parents_of (build catalog) u.unique_id = u.depends_on)
    ∧ ∀ uid, uid ∉ catalog.map SpecUnit.unique_id → parents_of (build catalog) uid = [] := by
  constructor
  · intro u hu
    have h := lookupSeq_catFold_parents_mem catalog [] u hnd hu
    simpa [parents_of, build, lookupSeq_nil] using h
  · intro uid huid
    have h := lookupSeq_catFold_parents_untouched catalog [] uid
      (fun w hw hh =>
        huid (by rw [← hh]; exact List.mem_map_of_mem SpecUnit.unique_id hw))
    simpa [parents_of, build, lookupSeq_nil] using h

/-- C2 witness: in the diamond catalog, parents_of orders is exactly the
declared dependency list, and an unknown ghost id yields the empty
sequence. -/
theorem parents_of_matches_depends_on_witness :
    parents_of (build diamond_catalog) "model.jaffle_shop.orders"
        = ["model.jaffle_shop.customers"]
    ∧ parents_of (build diamond_catalog) "model.unknown.ghost" = [] :=
  ⟨(parents_of_matches_depends_on diamond_catalog (by decide)).1 orders_unit (by decide),
   (parents_of_matches_depends_on diamond_catalog (by decide)).2 "model.unknown.ghost"
     (by decide)⟩

/-- C3 counterexample: on a catalog whose insertion order is zeta before
alpha, the source's filter returns the zeta entry first, which is not
the display order (name ascending) the claim states, so the filter's
output differs from the spec-worded display-ordered filter. -/
theorem filter_nodes_not_display_sorted :
    (DBTProject.filter_nodes_by_resource_type exNodes "model").map Prod.fst
        = ["model.demo.zeta", "model.demo.alpha"]
    ∧ (filter_by_resource_type_spec exNodes "model").map Prod.fst
        = ["model.demo.alpha", "model.demo.zeta"]
    ∧ DBTProject.filter_nodes_by_resource_type exNodes "model"
        ≠ filter_by_resource_type_spec exNodes "model" := by
  refine ⟨rfl, rfl, fun h => ?_⟩
  exact absurd (congrArg (List.map Prod.fst) h) (by decide)

/-- C3 (amended): the resource-type filter returns exactly the entries
of the nodes mapping whose payload is a dict with resource_type equal to
the requested value, preserving the nodes mapping's own iteration order
(a sublist of the input, not name-sorted), and as a pure function it is
stable across repeated calls on the same catalog. -/
theorem filter_nodes_by_resource_type_exact (nodes : List (String × Py)) (rt : String) :
    (DBTProject.filter_nodes_by_resource_type nodes rt).Sublist nodes
    ∧ ∀ kv, kv ∈ DBTProject.filter_nodes_by_resource_type nodes rt ↔
        kv ∈ nodes ∧ nodeHasType kv.2 rt = true := by
  refine ⟨List.filter_sublist _, fun kv => ?_⟩
  simp [DBTProject.filter_nodes_by_resource_type, List.mem_filter]

/-- C3 witness: the filtered example catalog is a sublist of the input
and membership is exactly the resource-type test. -/
theorem filter_nodes_by_resource_type_exact_witness :
    (DBTProject.filter_nodes_by_resource_type exNodes "model").Sublist exNodes
    ∧ ∀ kv, kv ∈ DBTProject.filter_nodes_by_resource_type exNodes "model" ↔
        kv ∈ exNodes ∧ nodeHasType kv.2 "model" = true :=
  filter_nodes_by_resource_type_exact exNodes "model"

/-- C4 counterexample: loading a project whose filesystem has no
manifest.json returns the non-error result None; it does not signal a
NotFoundError condition. -/
theorem load_manifest_missing_not_notfound :
    (proj0.load_manifest fs_missing pm0 false).1 = Except.ok Option.none
    ∧ (proj0.load_manifest fs_missing pm0 false).1 ≠ Except.error Err.notFoundError := by
  refine ⟨rfl, fun h => ?_⟩
  have h2 : (Except.ok Option.none : Except Err (Option DBTManifest))
      = Except.error Err.notFoundError := h
  exact Except.noConfusion h2

/-- C4 (amended): a project whose target directory has no manifest.json
yields the distinct non-error result None (nothing to show yet) rather
than raising, while a manifest.json that is present but not valid JSON
raises the JSON decode error; the outcomes are distinct and neither is
merged into a generic failure. -/
theorem load_manifest_missing_vs_corrupt (self : DBTProject) (fs : FS)
    (pm : Py → Option Native) :
    (fs self.manifest_path = Option.none →
      self.load_manifest fs pm true = (Except.ok Option.none, self))
    ∧ (fs self.manifest_path = some Option.none →
      self.load_manifest fs pm true = (Except.error Err.jsonDecodeError, self)) := by
  constructor
  · intro h
    rw [load_manifest_reload_eval, h]
  · intro h
    rw [load_manifest_reload_eval, h]

/-- C4 witness: concrete missing and corrupt filesystems produce the two
distinct outcomes. -/
theorem load_manifest_missing_vs_corrupt_witness :
    proj0.load_manifest fs_missing pm0 true = (Except.ok Option.none, proj0)
    ∧ proj0.load_manifest fs_corrupt pm0 true = (Except.error Err.jsonDecodeError, proj0) :=
  ⟨(load_manifest_missing_vs_corrupt proj0 fs_missing pm0).1 rfl,
   (load_manifest_missing_vs_corrupt proj0 fs_corrupt pm0).2 rfl⟩

/-- C5 counterexample: for a unit with resource_type "model" and name
"customers" the rendered label is "Model: customers" (resource_type is
title-cased by main.py line 85), not the claimed "model: customers". -/
theorem nodeTitle_not_bare_resource_type :
    nodeTitle [(Py.str "name", Py.str "customers"), (Py.str "resource_type", Py.str "model")]
        = some "Model: customers"
    ∧ (some "Model: customers" : Option String) ≠ some "model: customers" := by
  exact ⟨rfl, by decide⟩

/-- C5 (amended): the rendered title for a unit with string name and
resource_type is resource_type.title() ++ ": " ++ name (title-cased),
with " (materialized)" appended when config.materialized is a truthy
(non-empty) string; for a details dict with the fields missing the
defaults "node" and "Unknown" render the title "Node: Unknown"; and
dependency ids are displayed by their last dot-delimited segment, e.g.
the dangling id "model.missing.ghost" renders as "ghost" instead of
failing. -/
theorem nodeTitle_title_cased (rt name m : String) (hm : m ≠ "") :
    (nodeTitle [(Py.str "name", Py.str name), (Py.str "resource_type", Py.str rt)]
        = some (pyTitle rt ++ ": " ++ name))
    ∧ (nodeTitle [(Py.str "name", Py.str name), (Py.str "resource_type", Py.str rt),
          (Py.str "config", Py.dict [(Py.str "materialized", Py.str m)])]
        = some (pyTitle rt ++ ": " ++ name ++ (" (" ++ m ++ ")")))
    ∧ nodeTitle [] = some "Node: Unknown"
    ∧ parentDisplayNames ["model.missing.ghost"] = ["ghost"] := by
  refine ⟨?_, ?_, by decide, rfl⟩
  · have h : nodeTitle [(Py.str "name", Py.str name), (Py.str "resource_type", Py.str rt)]
        = some (pyTitle rt ++ ": " ++ name ++ "") := rfl
    rw [h, String.append_empty]
  · have ht : pyTruthy (Py.str m) = true := by
      simp [pyTruthy, hm]
    have h : nodeTitle [(Py.str "name", Py.str name), (Py.str "resource_type", Py.str rt),
          (Py.str "config", Py.dict [(Py.str "materialized", Py.str m)])]
        = some (pyTitle rt ++ ": " ++ name ++
            (if pyTruthy (Py.str m) then " (" ++ m ++ ")" else "")) := rfl
    rw [h, if_pos ht]

/-- C5 witness: the amended title formula at concrete units — plain,
materialized, and all-defaults — plus the dangling-id fallback. -/
theorem nodeTitle_title_cased_witness :
    (nodeTitle [(Py.str "name", Py.str "customers"), (Py.str "resource_type", Py.str "model")]
        = some (pyTitle "model" ++ ": " ++ "customers"))
    ∧ (nodeTitle [(Py.str "name", Py.str "customers"), (Py.str "resource_type", Py.str "model"),
          (Py.str "config", Py.dict [(Py.str "materialized", Py.str "table")])]
        = some (pyTitle "model" ++ ": " ++ "customers" ++ (" (" ++ "table" ++ ")")))
    ∧ nodeTitle [] = some "Node: Unknown"
    ∧ parentDisplayNames ["model.missing.ghost"] = ["ghost"] :=
  nodeTitle_title_cased "model" "customers" "table" (by decide)

/-- C7: the derived artifact path is project_root, then the descriptor's
target-path value when present and the literal "target" when absent,
then manifest.json. -/
theorem manifest_path_derivation (self : DBTProject) :
    (∀ tp, yamlGet self.project_yaml "target-path" = some tp →
      self.manifest_path = self.project_path ++ [tp, "manifest.json"])
    ∧ (yamlGet self.project_yaml "target-path" = Option.none →
      self.manifest_path = self.project_path ++ ["target", "manifest.json"]) := by
  constructor
  · intro tp h
    simp [DBTProject.manifest_path, h]
  · intro h
    simp [DBTProject.manifest_path, h]

/-- C7 witness: a descriptor with target-path build and one without. -/
theorem manifest_path_derivation_witness :
    proj_tp.manifest_path = ["root", "build", "manifest.json"]
    ∧ proj0.manifest_path = ["proj", "target", "manifest.json"] :=
  ⟨(manifest_path_derivation proj_tp).1 "build" rfl,
   (manifest_path_derivation proj0).2 rfl⟩

/-- C8: if a forced reload fails (re-reading or re-parsing raises), the
project state is unchanged — the previously cached manifest is still in
place — and a subsequent call with reload disabled still returns that
prior manifest; the cache is only replaced after a new manifest has been
fully constructed. -/
theorem load_manifest_reload_failure_keeps_cache (self : DBTProject) (fs fs2 : FS)
    (pm pm2 : Py → Option Native) (m : DBTManifest) (e : Err)
    (hm : self._manifest = some m)
    (he : (self.load_manifest fs pm true).1 = Except.error e) :
    (self.load_manifest fs pm true).2 = self
    ∧ ((self.load_manifest fs pm true).2.load_manifest fs2 pm2 false).1
        = Except.ok (some m) := by
  have hstate : (self.load_manifest fs pm true).2 = self := by
    rw [load_manifest_reload_eval] at he ⊢
    cases hfs : fs self.manifest_path with
    | none => rfl
    | some o =>
      cases o with
      | none => rfl
      | some data =>
        cases hpm : pm data with
        | none => simp [hpm]
        | some native => simp [hfs, hpm] at he
  refine ⟨hstate, ?_⟩
  rw [hstate]
  simp [DBTProject.load_manifest, hm]

/-- C8 witness: a cached project reloaded against an invalid-JSON
filesystem fails, keeps its state, and still serves the cached manifest
on the next non-reload call. -/
theorem load_manifest_reload_failure_keeps_cache_witness :
    (proj_cached.load_manifest fs_corrupt pm0 true).2 = proj_cached
    ∧ ((proj_cached.load_manifest fs_corrupt pm0 true).2.load_manifest fs_missing pm0 false).1
        = Except.ok (some cached_manifest) :=
  load_manifest_reload_failure_keeps_cache proj_cached fs_corrupt fs_missing pm0 pm0
    cached_manifest Err.jsonDecodeError rfl rfl

/-- C9 counterexample: with the valid include "all" on a present but
corrupt manifest, get_manifest_json propagates the json.load failure,
and json.JSONDecodeError is a ValueError instance in Python — the
program raises a ValueError although the include argument is valid,
refuting the claimed iff. -/
theorem get_manifest_json_valueError_with_valid_include :
    VALID_INCLUDE.contains (pyStrip (pyLowerStr "all")) = true
    ∧ (proj0.get_manifest_json fs_corrupt pm0 "all").1 = Except.error Err.jsonDecodeError
    ∧ Err.jsonDecodeError.isValueError = true :=
  ⟨by decide, rfl, rfl⟩

/-- C9 (amended): get_manifest_json raises its include-validation
ValueError (the explicit raise at dbt.py:345, Err.valueError) exactly
when the include argument, after lower() and strip(), is not one of the
valid include keywords — so include is accepted case-insensitively and
ignoring surrounding whitespace — and for a valid include with no
manifest present it returns an empty mapping rather than raising. With
a valid include, loader failures can still propagate, and in Python
those are themselves ValueError instances (see Err.isValueError), so
the original claim's iff about raising any ValueError fails. -/
theorem get_manifest_json_valueError_iff (self : DBTProject) (fs : FS)
    (pm : Py → Option Native) (includeArg : String) :
    ((self.get_manifest_json fs pm includeArg).1 = Except.error Err.valueError ↔
      VALID_INCLUDE.contains (pyStrip (pyLowerStr includeArg)) = false)
    ∧ (VALID_INCLUDE.contains (pyStrip (pyLowerStr includeArg)) = true →
      self._manifest = Option.none → fs self.manifest_path = Option.none →
      (self.get_manifest_json fs pm includeArg).1 = Except.ok (Py.dict [])) := by
  cases hc : VALID_INCLUDE.contains (pyStrip (pyLowerStr includeArg)) with
  | false =>
    have hmem : pyStrip (pyLowerStr includeArg) ∉ VALID_INCLUDE := by simpa using hc
    constructor
    · simp [DBTProject.get_manifest_json, hmem]
    · intro h
      exact Bool.noConfusion h
  | true =>
    have hnv : (self.get_manifest_json fs pm includeArg).1 = Except.error Err.valueError →
        False := by
      intro h
      simp only [DBTProject.get_manifest_json, hc, Bool.not_true, Bool.false_eq_true,
        if_false] at h
      rw [manifest_or_empty_eval] at h
      cases hm : self._manifest with
      | some m => simp [hm] at h
      | none =>
        cases hfs : fs self.manifest_path with
        | none => simp [hm, hfs] at h
        | some o =>
          cases o with
          | none => simp [hm, hfs] at h
          | some data =>
            cases hpm : pm data with
            | none => simp [hm, hfs, hpm] at h
            | some native => simp [hm, hfs, hpm] at h
    constructor
    · constructor
      · intro h
        exact absurd h hnv
      · intro h
        exact Bool.noConfusion h
    · intro _ hm hfs
      simp only [DBTProject.get_manifest_json, hc, Bool.not_true, Bool.false_eq_true,
        if_false]
      rw [manifest_or_empty_eval]
      simp [hm, hfs]

/-- C9 witness: a whitespace-padded upper-case include on a project with
no manifest returns an empty dict. -/
theorem get_manifest_json_valueError_iff_witness :
    (proj0.get_manifest_json fs_missing pm0 "  MODEL  ").1 = Except.ok (Py.dict []) :=
  (get_manifest_json_valueError_iff proj0 fs_missing pm0 "  MODEL  ").2 (by decide) rfl rfl

/-- C10 counterexample: an object whose dict method returns a tuple is
passed through _to_jsonable unrecursed, so the result is not built only
from None, booleans, numbers, strings, lists, and string-keyed dicts. -/
theorem to_jsonable_model_payload_not_jsonable :
    to_jsonable (Py.modelV1 (Py.tuple [])) = Py.tuple []
    ∧ isJsonable (to_jsonable (Py.modelV1 (Py.tuple []))) = false :=
  ⟨rfl, rfl⟩

/-- C10 (amended): _to_jsonable is total by construction, and for every
input containing no pydantic-style model objects (whose model_dump/dict
results are returned unrecursed) its result is built only from None,
booleans, numbers, strings, lists, and string-keyed dicts. -/
theorem to_jsonable_jsonable_when_no_models (v : Py) (h : noModel v = true) :
    isJsonable (to_jsonable v) = true :=
  noModel_isJsonable v h

/-- C10 witness: a nested model-free payload converts to a jsonable
value. -/
theorem to_jsonable_jsonable_when_no_models_witness :
    noModel c10_example = true ∧ isJsonable (to_jsonable c10_example) = true :=
  ⟨rfl, to_jsonable_jsonable_when_no_models c10_example rfl⟩
